import Mathlib

/-!
Shallow embedding of the multi-chain payment verification core of the
payment-integration service, together with theorems settling the frozen
claims about it.  Each definition is translated from the corresponding Rust
item (file and symbol named in its doc comment); definitions built from a
claim's own words (for comparison against the code) say so explicitly.

Modelling conventions, used throughout:
* machine integers (`u64`, `i64`, `U256`, …) are `Nat`; every value the
  embedded code ranges over is non-negative, and `u64::saturating_sub` is
  `Nat` subtraction;
* addresses, hashes and signatures are already-canonical `String`s: the
  source's parsing of them (`str::parse::<Address>`, `Signature::from_str`)
  is abstracted away, since no claim turns on a malformed reference;
* the chain RPC world is passed in as the responses the node returns
  (transaction / receipt / block-height lookups for the reference at hand);
* HMAC-SHA256 itself is an abstract parameter (`mac`), and the code around
  it — payload conventions, hex comparison, dispatch — is embedded exactly;
* database rows live in plain lists, repository operations are pure
  functions on them, and `Utc::now()` becomes an explicit `now : Nat`
  argument to every operation that reads the clock.
-/

/-- `models/wallet.rs` `ChainType`. -/
inductive ChainType
  | Ethereum
  | Polygon
  | Bsc
  | Arbitrum
  | Solana
  | Bitcoin
deriving DecidableEq, Repr

/-- `models/payment.rs` `PaymentStatus`. -/
inductive PaymentStatus
  | Pending
  | Processing
  | Completed
  | Failed
  | Cancelled
  | Refunded
  | Expired
deriving DecidableEq, Repr

/-- `models/payment.rs` `PaymentMethod`. -/
inductive PaymentMethod
  | Card
  | Upi
  | NetBanking
  | Wallet
  | Emi
  | Ethereum
  | Polygon
  | Bsc
  | Arbitrum
  | Solana
  | Lightning
deriving DecidableEq, Repr

/-- `models/payment.rs` `CurrencyType`. -/
inductive CurrencyType
  | INR
  | USD
  | EUR
  | ETH
  | MATIC
  | BNB
  | SOL
  | BTC
  | USDT
  | USDC
deriving DecidableEq, Repr

/-- `models/webhook_event.rs` `WebhookStatus`. -/
inductive WebhookStatus
  | Received
  | Processing
  | Processed
  | Failed
  | Ignored
deriving DecidableEq, Repr

/-- `error/mod.rs` `AppError`, restricted to the variants the embedded code
constructs (the `#[from]` wrappers for sqlx/reqwest carry foreign payloads and
are represented by their message). -/
inductive AppError
  | Payment (msg : String)
  | Ethereum (msg : String)
  | Solana (msg : String)
  | Lightning (msg : String)
  | InvalidSignature (msg : String)
  | InvalidAddress (msg : String)
  | NotFound (msg : String)
  | Serialization (msg : String)
  | Internal (msg : String)
  | WebhookVerification (msg : String)
deriving DecidableEq, Repr

/-- The `thiserror` `#[error(...)]` rendering of `AppError` (`e.to_string()`). -/
def AppError.message : AppError → String
  | .Payment m => "Payment error: " ++ m
  | .Ethereum m => "Ethereum error: " ++ m
  | .Solana m => "Solana error: " ++ m
  | .Lightning m => "Lightning error: " ++ m
  | .InvalidSignature m => "Invalid signature: " ++ m
  | .InvalidAddress m => "Invalid address: " ++ m
  | .NotFound m => "Resource not found: " ++ m
  | .Serialization m => "Serialization error: " ++ m
  | .Internal m => "Internal server error: " ++ m
  | .WebhookVerification m => "Webhook verification failed: " ++ m

/-- `str::to_lowercase`, character-wise (the chain names it is applied to are
ASCII, where Rust's Unicode lowercasing and `Char.toLower` agree); written
over the character list so that the kernel can evaluate it. -/
def toLowercase (s : String) : String :=
  String.mk (s.data.map Char.toLower)

/-- `models/wallet.rs` `impl FromStr for ChainType`. -/
def chainTypeFromStr (s : String) : Option ChainType :=
  match toLowercase s with
  | "ethereum" | "eth" => some .Ethereum
  | "polygon" | "matic" => some .Polygon
  | "bsc" | "bnb" => some .Bsc
  | "arbitrum" | "arb" => some .Arbitrum
  | "solana" | "sol" => some .Solana
  | "bitcoin" | "btc" => some .Bitcoin
  | _ => none

/-- `models/wallet.rs` `impl Display for ChainType`. -/
def chainTypeToString : ChainType → String
  | .Ethereum => "ethereum"
  | .Polygon => "polygon"
  | .Bsc => "bsc"
  | .Arbitrum => "arbitrum"
  | .Solana => "solana"
  | .Bitcoin => "bitcoin"

/-- The fields of `ethers::types::Transaction` the EVM adapter reads:
sender `from`, recipient `to` (`None` for contract creation) and value in
wei (`to` being a reserved token in Lean, the fields are `fromAddr`/`toAddr`). -/
structure EvmTransaction where
  fromAddr : String
  toAddr : Option String
  value : Nat
deriving DecidableEq, Repr

/-- The fields of `ethers::types::TransactionReceipt` the EVM adapter reads:
`status` (`Some 1` = success) and the mined block number (`None` = pending). -/
structure EvmReceipt where
  status : Option Nat
  blockNumber : Option Nat
deriving DecidableEq, Repr

/-- `services/crypto/ethereum.rs` `PaymentVerification`. -/
structure PaymentVerification where
  is_valid : Bool
  to_matches : Bool
  amount_matches : Bool
  is_successful : Bool
  confirmations : Nat
  from_address : String
  to_address : Option String
  actual_amount : Nat
  block_number : Option Nat
deriving DecidableEq, Repr

/-- `services/crypto/ethereum.rs` `EthereumService::verify_payment`.  The RPC
responses for the requested hash are passed in: `tx?` is what
`get_transaction` returned, `receipt?` what `get_transaction_receipt`
returned, and `currentBlock` the height `get_block_number` reports.
`current_block.saturating_sub(block_number)` is `Nat` subtraction. -/
def evmVerifyPayment (tx? : Option EvmTransaction) (receipt? : Option EvmReceipt)
    (currentBlock : Nat) (expectedTo : String) (expectedAmountWei : Nat) :
    Except AppError PaymentVerification :=
  match tx? with
  | none => .error (.Ethereum "Transaction not found")
  | some tx =>
    let toMatches := tx.toAddr == some expectedTo
    let amountMatches := decide (expectedAmountWei ≤ tx.value)
    let isSuccessful := (receipt?.map fun r => r.status == some 1).getD false
    let confirmations :=
      match receipt? with
      | some r =>
        match r.blockNumber with
        | some blockNumber => currentBlock - blockNumber
        | none => 0
      | none => 0
    .ok
      { is_valid := toMatches && amountMatches && isSuccessful
        to_matches := toMatches
        amount_matches := amountMatches
        is_successful := isSuccessful
        confirmations := confirmations
        from_address := tx.fromAddr
        to_address := tx.toAddr
        actual_amount := tx.value
        block_number := receipt?.bind fun r => r.blockNumber }

/-- The source's `eth_amount > 10.0` comparison, exactly.  `format_ether`
renders the exact decimal `amount_wei / 10^18` and `parse::<f64>` rounds it
to the nearest double (ties to even); a correctly-rounded conversion is
monotone and `10.0`'s significand is even, so the rounded value exceeds
`10.0` iff the exact value exceeds `10 + 2^-50` (half an ulp of `10.0`; the
tie point is never an integer number of wei, since `2^50` does not divide
`10^18`).  Scaled by `10^18 * 2^50` this is the integer comparison below: it
first holds at `10^19 + 889` wei, so amounts up to 888 wei above 10 ETH
still round to `10.0` and fail it. -/
def ethAmountGtTen (amountWei : Nat) : Bool :=
  decide (2 ^ 50 * (10 * 10 ^ 18) + 10 ^ 18 < 2 ^ 50 * amountWei)

/-- The source's `eth_amount > 1.0` comparison, exactly: the rounded value
exceeds `1.0` iff the exact value exceeds `1 + 2^-53` (half an ulp of `1.0`,
whose significand is even; the tie point is never hit at integer wei).  It
first holds at `10^18 + 112` wei. -/
def ethAmountGtOne (amountWei : Nat) : Bool :=
  decide (2 ^ 53 * 10 ^ 18 + 10 ^ 18 < 2 ^ 53 * amountWei)

/-- `services/crypto/ethereum.rs` `EthereumService::get_required_confirmations`.
The source converts `amount_wei` to an ETH value — `format_ether` then
`parse::<f64>().unwrap_or(0.0)`; the rendered decimal always parses, and an
overflowing one parses to infinity, which compares like the huge integer it
came from — and tiers on `eth_amount > 10.0` / `> 1.0`.  The two comparisons
are embedded exactly as `ethAmountGtTen` / `ethAmountGtOne`.  The `i32` tier
values are non-negative literals, so the result is `Nat`. -/
def ethereumGetRequiredConfirmations (chainType : ChainType) (amountWei : Nat) : Nat :=
  match chainType with
  | .Ethereum =>
    if ethAmountGtTen amountWei then 12
    else if ethAmountGtOne amountWei then 6
    else 3
  | .Polygon | .Bsc =>
    if ethAmountGtTen amountWei then 50
    else if ethAmountGtOne amountWei then 25
    else 10
  | .Arbitrum =>
    if ethAmountGtTen amountWei then 20
    else 5
  | _ => 3

/-- `services/crypto/solana.rs` `SolanaService::get_required_confirmations`.
The source computes `amount_lamports as f64 / 1e9` and compares against
`100.0` / `10.0`.  Here the integer thresholds are exact, not an
approximation: the rounding boundary sits `10^9 * 2^-47` (resp. `2^-50`)
lamports above `100 * 10^9` (resp. `10 * 10^9`) — far less than one
lamport — the `u64 -> f64` conversion is exact below `2^53` where the
boundaries live, and both paths are monotone, so the `f64` comparison and
the integer comparison agree at every `u64` amount. -/
def solanaGetRequiredConfirmations (amountLamports : Nat) : Nat :=
  if 100 * 10 ^ 9 < amountLamports then 32
  else if 10 * 10 ^ 9 < amountLamports then 16
  else 1

/-- The `meta` object of a fetched Solana transaction: `err` is the failure
recorded on chain (`none` = the transaction succeeded). -/
structure SolanaMeta where
  err : Option String
deriving DecidableEq, Repr

/-- The fields of the RPC `get_transaction` response the Solana adapter
reads: the slot and the optional `meta`. -/
structure SolanaTransaction where
  slot : Nat
  meta : Option SolanaMeta
deriving DecidableEq, Repr

/-- One entry of the RPC `get_signature_statuses` response: `confirmations`
is `None` once the transaction is rooted (the source reads it with
`unwrap_or(0)`). -/
structure SolanaSignatureStatus where
  confirmations : Option Nat
deriving DecidableEq, Repr

/-- `services/crypto/solana.rs` `SolanaPaymentVerification`. -/
structure SolanaPaymentVerification where
  is_valid : Bool
  is_successful : Bool
  confirmations : Nat
  slot : Nat
deriving DecidableEq, Repr

/-- The Solana node's answers for the signature under verification:
`tx?` is the `get_transaction` response (`none` = the RPC call failed, which
`verify_payment` surfaces as "Transaction not found") and `sigStatus?` the
`get_signature_statuses` entry (`none` = unknown signature). -/
structure SolanaRpcWorld where
  tx? : Option SolanaTransaction
  sigStatus? : Option SolanaSignatureStatus
deriving DecidableEq, Repr

/-- `services/crypto/solana.rs` `SolanaService::get_confirmations`: the
status entry's `confirmations.unwrap_or(0)`, and `0` when the signature is
unknown. -/
def solanaGetConfirmations (world : SolanaRpcWorld) : Nat :=
  match world.sigStatus? with
  | some status => status.confirmations.getD 0
  | none => 0

/-- `services/crypto/solana.rs` `SolanaService::verify_payment`.  The
`_expectedTo` and `_expectedAmountLamports` parameters are accepted but never
inspected, exactly as in the source (its comment calls the check
"a simplified version"). -/
def solanaVerifyPayment (world : SolanaRpcWorld) (_signature : String)
    (_expectedTo : String) (_expectedAmountLamports : Nat) :
    Except AppError SolanaPaymentVerification :=
  match world.tx? with
  | none => .error (.Solana "Transaction not found")
  | some tx =>
    let isSuccessful := (tx.meta.map fun m => m.err.isNone).getD false
    let confirmations := solanaGetConfirmations world
    .ok
      { is_valid := isSuccessful
        is_successful := isSuccessful
        confirmations := confirmations
        slot := tx.slot }

/-- `models/payment.rs` `Payment`, keeping the columns the verification core
reads or writes (identity, amount, status, method, the three method-specific
field groups and the timestamps; free-text metadata columns are omitted).
`amount` is the `i64` smallest-unit amount, always non-negative, so `Nat`
(the source's `as u128`/`as u64` casts are then the identity). -/
structure Payment where
  id : Nat
  amount : Nat
  status : PaymentStatus
  method : PaymentMethod
  razorpayPaymentId : Option String
  razorpayOrderId : Option String
  razorpaySignature : Option String
  cryptoTxHash : Option String
  cryptoFromAddress : Option String
  cryptoToAddress : Option String
  cryptoChain : Option String
  lightningInvoice : Option String
  lightningPaymentHash : Option String
  expiresAt : Option Nat
  completedAt : Option Nat
  createdAt : Nat
  updatedAt : Nat
deriving DecidableEq, Repr

/-- `models/webhook_event.rs` `WebhookEvent` (headers and provider event id
omitted: the embedded code never reads them). -/
structure WebhookEvent where
  id : Nat
  eventType : String
  paymentId : Option Nat
  status : WebhookStatus
  payload : String
  signature : Option String
  signatureVerified : Bool
  errorMessage : Option String
  processedAt : Option Nat
  createdAt : Nat
deriving DecidableEq, Repr

/-- `models/wallet.rs` `CryptoAddress`, the columns `AddressRepository::create`
fills. -/
structure CryptoAddress where
  address : String
  chain : ChainType
  paymentId : Option Nat
  expectedAmount : Option Nat
  isActive : Bool
  createdAt : Nat
deriving DecidableEq, Repr

/-- `models/transaction.rs` `Transaction`, the columns
`TransactionRepository::create` fills (`status` starts `Pending`,
`confirmations` at 0). -/
structure TransactionRow where
  paymentId : Nat
  amount : Nat
  currency : String
  chain : Option String
  requiredConfirmations : Nat
  createdAt : Nat
deriving DecidableEq, Repr

/-- The persistent store as the repositories see it: one list per table. -/
structure Db where
  payments : List Payment
  cryptoAddresses : List CryptoAddress
  transactions : List TransactionRow
  webhookEvents : List WebhookEvent
deriving DecidableEq, Repr

/-- SQL `COALESCE(new, old)`. -/
def coalesce (new old : Option α) : Option α :=
  match new with
  | some v => some v
  | none => old

/-- `db/repositories/payment_repo.rs` `PaymentRepository::update_status` on
one row: sets the status, stamps `completed_at = COALESCE(now-if-completed,
completed_at)` and refreshes `updated_at`. -/
def paymentUpdateStatusRow (p : Payment) (status : PaymentStatus) (now : Nat) : Payment :=
  let completedAt : Option Nat := if status = PaymentStatus.Completed then some now else none
  { p with
    status := status
    completedAt := coalesce completedAt p.completedAt
    updatedAt := now }

/-- `db/repositories/payment_repo.rs` `PaymentRepository::update_crypto_details`
on one row: each field is `COALESCE`d with its old value. -/
def paymentUpdateCryptoDetailsRow (p : Payment)
    (txHash fromAddress toAddress chain : Option String) (now : Nat) : Payment :=
  { p with
    cryptoTxHash := coalesce txHash p.cryptoTxHash
    cryptoFromAddress := coalesce fromAddress p.cryptoFromAddress
    cryptoToAddress := coalesce toAddress p.cryptoToAddress
    cryptoChain := coalesce chain p.cryptoChain
    updatedAt := now }

/-- `db/repositories/payment_repo.rs` `PaymentRepository::update_razorpay_details`
on one row: the three razorpay columns are overwritten (no `COALESCE`). -/
def paymentUpdateRazorpayDetailsRow (p : Payment) (orderId : String)
    (paymentId signature : Option String) (now : Nat) : Payment :=
  { p with
    razorpayOrderId := some orderId
    razorpayPaymentId := paymentId
    razorpaySignature := signature
    updatedAt := now }

/-- `db/repositories/payment_repo.rs` `PaymentRepository::update_lightning_details`
on one row. -/
def paymentUpdateLightningDetailsRow (p : Payment) (invoice paymentHash : String)
    (now : Nat) : Payment :=
  { p with
    lightningInvoice := some invoice
    lightningPaymentHash := some paymentHash
    updatedAt := now }

/-- An `UPDATE ... WHERE id = $1` applied to the payments table. -/
def updatePaymentsWhereId (payments : List Payment) (id : Nat)
    (f : Payment → Payment) : List Payment :=
  payments.map fun p => if p.id = id then f p else p

/-- `PaymentRepository::find_by_razorpay_order_id` (`fetch_optional`). -/
def findByRazorpayOrderId (payments : List Payment) (orderId : String) : Option Payment :=
  payments.find? fun p => p.razorpayOrderId == some orderId

/-- `PaymentRepository::create`: inserts a fresh row with status `Pending`
and every method-specific column `NULL`. -/
def paymentCreateRow (amount : Nat) (method : PaymentMethod) (newId now : Nat) : Payment :=
  { id := newId
    amount := amount
    status := PaymentStatus.Pending
    method := method
    razorpayPaymentId := none
    razorpayOrderId := none
    razorpaySignature := none
    cryptoTxHash := none
    cryptoFromAddress := none
    cryptoToAddress := none
    cryptoChain := none
    lightningInvoice := none
    lightningPaymentHash := none
    expiresAt := none
    completedAt := none
    createdAt := now
    updatedAt := now }

/-- `db/repositories/webhook_repo.rs` `WebhookRepository::create`: inserts the
delivery with status `Received` and `signature_verified = false`. -/
def webhookCreateRow (eventType payload : String) (signature : Option String)
    (newId now : Nat) : WebhookEvent :=
  { id := newId
    eventType := eventType
    paymentId := none
    status := WebhookStatus.Received
    payload := payload
    signature := signature
    signatureVerified := false
    errorMessage := none
    processedAt := none
    createdAt := now }

/-- `db/repositories/webhook_repo.rs` `WebhookRepository::update_status` on one
row: overwrites status, `signature_verified`, `payment_id` and
`error_message`, and sets `processed_at` to `now` exactly when the new status
is `Processed` or `Failed` (to `NULL` otherwise). -/
def webhookUpdateStatusRow (e : WebhookEvent) (status : WebhookStatus)
    (signatureVerified : Bool) (paymentId : Option Nat)
    (errorMessage : Option String) (now : Nat) : WebhookEvent :=
  let processedAt : Option Nat :=
    if status = WebhookStatus.Processed ∨ status = WebhookStatus.Failed then some now else none
  { e with
    status := status
    signatureVerified := signatureVerified
    paymentId := paymentId
    errorMessage := errorMessage
    processedAt := processedAt }

/-- `WebhookRepository::update_status` as an `UPDATE ... WHERE id = $1` on the
webhook-events table. -/
def webhookUpdateStatusDb (events : List WebhookEvent) (id : Nat)
    (status : WebhookStatus) (signatureVerified : Bool) (paymentId : Option Nat)
    (errorMessage : Option String) (now : Nat) : List WebhookEvent :=
  events.map fun e =>
    if e.id = id then webhookUpdateStatusRow e status signatureVerified paymentId errorMessage now
    else e

/-- Which optional EVM adapters the `PaymentProcessor` was constructed with
(`polygon`/`bsc`/`arbitrum` are `Option<Arc<EthereumService>>`; `ethereum`
and `solana` are always present). -/
structure ProcessorConfig where
  hasPolygon : Bool
  hasBsc : Bool
  hasArbitrum : Bool
deriving DecidableEq, Repr

/-- `PaymentProcessor::get_evm_service` returns `Some` for exactly these
chains. -/
def evmServiceConfigured (cfg : ProcessorConfig) : ChainType → Bool
  | .Ethereum => true
  | .Polygon => cfg.hasPolygon
  | .Bsc => cfg.hasBsc
  | .Arbitrum => cfg.hasArbitrum
  | _ => false

/-- The chains `verify_crypto_payment` routes to the EVM adapter. -/
def isEvmChain : ChainType → Bool
  | .Ethereum | .Polygon | .Bsc | .Arbitrum => true
  | _ => false

/-- `services/payment_processor.rs` `PaymentProcessor::generate_deposit_address`:
every arm returns an error (HD-wallet derivation is unimplemented). -/
def generateDepositAddress : ChainType → Except AppError String
  | .Ethereum | .Polygon | .Bsc | .Arbitrum =>
    .error (.Payment "Configure HD wallet for address generation")
  | .Solana =>
    .error (.Payment "Configure HD wallet for address generation")
  | .Bitcoin =>
    .error (.Payment "Bitcoin address generation not implemented")

/-- `services/crypto/lightning.rs` `CreateInvoiceResponse`. -/
structure CreateInvoiceResponse where
  paymentRequest : String
  paymentHash : String
  addIndex : Nat
deriving DecidableEq, Repr

/-- `services/crypto/lightning.rs` `LightningService::create_invoice`:
unconditionally returns the "not configured" error (the node call is an
explicit extension point). -/
def lightningCreateInvoice (_amountSat : Nat) (_description : String)
    (_expirySeconds : Nat) : Except AppError CreateInvoiceResponse :=
  .error (.Lightning
    "Lightning node connection not configured. Set LIGHTNING_NODE_URL in environment.")

/-- The node answers the chain adapters would see during
`verify_crypto_payment`: the EVM responses for the submitted hash plus the
Solana responses for the submitted signature. -/
structure CryptoWorld where
  evmTx? : Option EvmTransaction
  evmReceipt? : Option EvmReceipt
  evmCurrentBlock : Nat
  solana : SolanaRpcWorld
deriving DecidableEq, Repr

/-- `services/payment_processor.rs` `PaymentProcessor::verify_crypto_payment`
as a pure transformer of the one Payment row `find_by_id` returned.
Result: the call's `AppResult<Payment>` paired with the row as persisted when
the call finishes (`= p` on every error path: the source performs no write
before a successful adapter verdict). -/
def verifyCryptoPayment (cfg : ProcessorConfig) (world : CryptoWorld)
    (p : Payment) (txHash : String) (now : Nat) :
    Except AppError Payment × Payment :=
  match p.cryptoChain with
  | none => (.error (.Payment "Payment has no chain set"), p)
  | some chainStr =>
    match chainTypeFromStr chainStr with
    | none => (.error (.Payment ("Invalid chain: Unknown chain: " ++ chainStr)), p)
    | some chain =>
      match p.cryptoToAddress with
      | none => (.error (.Payment "Payment has no deposit address"), p)
      | some toAddress =>
        match chain with
        | .Ethereum | .Polygon | .Bsc | .Arbitrum =>
          if evmServiceConfigured cfg chain then
            match evmVerifyPayment world.evmTx? world.evmReceipt? world.evmCurrentBlock
                toAddress p.amount with
            | .error e => (.error e, p)
            | .ok verification =>
              if verification.is_valid then
                let p1 := paymentUpdateCryptoDetailsRow p (some txHash)
                  (some verification.from_address) none none now
                let newStatus :=
                  if ethereumGetRequiredConfirmations chain p.amount ≤ verification.confirmations
                  then PaymentStatus.Completed else PaymentStatus.Processing
                let p2 := paymentUpdateStatusRow p1 newStatus now
                (.ok p2, p2)
              else
                (.error (.Payment "Payment verification failed"), p)
          else
            (.error (.Payment (chainTypeToString chain ++ " not configured")), p)
        | .Solana =>
          match solanaVerifyPayment world.solana txHash toAddress p.amount with
          | .error e => (.error e, p)
          | .ok verification =>
            if verification.is_valid then
              let p1 := paymentUpdateCryptoDetailsRow p (some txHash) none none none now
              let newStatus :=
                if solanaGetRequiredConfirmations p.amount ≤ verification.confirmations
                then PaymentStatus.Completed else PaymentStatus.Processing
              let p2 := paymentUpdateStatusRow p1 newStatus now
              (.ok p2, p2)
            else
              (.error (.Payment "Payment verification failed"), p)
        | .Bitcoin => (.error (.Payment "Unsupported chain for verification"), p)

/-- `models/payment.rs` `CreatePaymentRequest` (optional free-text fields the
dispatch never branches on are kept as the one the Lightning path reads). -/
structure CreatePaymentRequest where
  amount : Nat
  currency : CurrencyType
  method : PaymentMethod
  description : Option String
deriving DecidableEq, Repr

/-- `services/payment_processor.rs` `PaymentCreationResult`
(`razorpay_key_id`, an echoed configuration string, is omitted). -/
structure PaymentCreationResult where
  paymentId : Nat
  status : PaymentStatus
  razorpayOrderId : Option String
  cryptoAddress : Option String
  lightningInvoice : Option String
  chain : Option String
  expiresAt : Option Nat
deriving DecidableEq, Repr

/-- `CurrencyType`'s `Display` (serde `UPPERCASE` naming, used for the
`Transaction` row's currency column). -/
def currencyTypeToString : CurrencyType → String
  | .INR => "INR"
  | .USD => "USD"
  | .EUR => "EUR"
  | .ETH => "ETH"
  | .MATIC => "MATIC"
  | .BNB => "BNB"
  | .SOL => "SOL"
  | .BTC => "BTC"
  | .USDT => "USDT"
  | .USDC => "USDC"

/-- `PaymentProcessor::create_razorpay_payment`: the fiat allow-list check,
then the external order creation — passed in as `orderResult`, the order id
Razorpay returned or the error the HTTP client surfaced — then
`update_razorpay_details`. -/
def createRazorpayPayment (orderResult : Except AppError String)
    (request : CreatePaymentRequest) (payment : Payment) (db : Db) (now : Nat) :
    Except AppError PaymentCreationResult × Db :=
  match request.currency with
  | .INR | .USD | .EUR =>
    match orderResult with
    | .error e => (.error e, db)
    | .ok orderId =>
      let payments1 := updatePaymentsWhereId db.payments payment.id
        (fun p => paymentUpdateRazorpayDetailsRow p orderId none none now)
      let db1 := { db with payments := payments1 }
      (.ok
        { paymentId := payment.id
          status := PaymentStatus.Pending
          razorpayOrderId := some orderId
          cryptoAddress := none
          lightningInvoice := none
          chain := none
          expiresAt := none }, db1)
  | _ => (.error (.Payment "Invalid currency for Razorpay"), db)

/-- The 1-hour expiry both crypto creation paths stamp
(`chrono::Utc::now() + chrono::Duration::hours(1)`, with `now` in seconds). -/
def oneHourFrom (now : Nat) : Nat := now + 3600

/-- `PaymentProcessor::create_evm_payment`: map the method to its chain, then
`generate_deposit_address` — which always errors, so everything after it
(address row, crypto details, transaction row) is dead code, embedded all the
same. -/
def createEvmPayment (cfg : ProcessorConfig) (request : CreatePaymentRequest)
    (payment : Payment) (db : Db) (now : Nat) :
    Except AppError PaymentCreationResult × Db :=
  let chainType? : Option ChainType :=
    match request.method with
    | .Ethereum => some .Ethereum
    | .Polygon => some .Polygon
    | .Bsc => some .Bsc
    | .Arbitrum => some .Arbitrum
    | _ => none
  match chainType? with
  | none => (.error (.Payment "Invalid EVM chain"), db)
  | some chainType =>
    match generateDepositAddress chainType with
    | .error e => (.error e, db)
    | .ok depositAddress =>
      let addr : CryptoAddress :=
        { address := depositAddress, chain := chainType, paymentId := some payment.id
          expectedAmount := some request.amount, isActive := true, createdAt := now }
      let db1 := { db with cryptoAddresses := db.cryptoAddresses ++ [addr] }
      let payments2 := updatePaymentsWhereId db1.payments payment.id
        (fun p => paymentUpdateCryptoDetailsRow p none none (some depositAddress)
          (some (chainTypeToString chainType)) now)
      let db2 := { db1 with payments := payments2 }
      if evmServiceConfigured cfg chainType then
        let requiredConfirmations := ethereumGetRequiredConfirmations chainType request.amount
        let txRow : TransactionRow :=
          { paymentId := payment.id, amount := request.amount
            currency := currencyTypeToString request.currency
            chain := some (chainTypeToString chainType)
            requiredConfirmations := requiredConfirmations, createdAt := now }
        let db3 := { db2 with transactions := db2.transactions ++ [txRow] }
        (.ok
          { paymentId := payment.id
            status := PaymentStatus.Pending
            razorpayOrderId := none
            cryptoAddress := some depositAddress
            lightningInvoice := none
            chain := some (chainTypeToString chainType)
            expiresAt := some (oneHourFrom now) }, db3)
      else
        (.error (.Payment (chainTypeToString chainType ++ " not configured")), db2)

/-- `PaymentProcessor::create_solana_payment`: `generate_deposit_address`
errors first, as on the EVM path. -/
def createSolanaPayment (request : CreatePaymentRequest) (payment : Payment)
    (db : Db) (now : Nat) : Except AppError PaymentCreationResult × Db :=
  match generateDepositAddress ChainType.Solana with
  | .error e => (.error e, db)
  | .ok depositAddress =>
    let addr : CryptoAddress :=
      { address := depositAddress, chain := ChainType.Solana, paymentId := some payment.id
        expectedAmount := some request.amount, isActive := true, createdAt := now }
    let db1 := { db with cryptoAddresses := db.cryptoAddresses ++ [addr] }
    let payments2 := updatePaymentsWhereId db1.payments payment.id
      (fun p => paymentUpdateCryptoDetailsRow p none none (some depositAddress)
        (some "solana") now)
    let db2 := { db1 with payments := payments2 }
    let requiredConfirmations := solanaGetRequiredConfirmations request.amount
    let txRow : TransactionRow :=
      { paymentId := payment.id, amount := request.amount
        currency := currencyTypeToString request.currency
        chain := some "solana"
        requiredConfirmations := requiredConfirmations, createdAt := now }
    let db3 := { db2 with transactions := db2.transactions ++ [txRow] }
    (.ok
      { paymentId := payment.id
        status := PaymentStatus.Pending
        razorpayOrderId := none
        cryptoAddress := some depositAddress
        lightningInvoice := none
        chain := some "solana"
        expiresAt := some (oneHourFrom now) }, db3)

/-- `PaymentProcessor::create_lightning_payment`: `create_invoice` — which
always errors — then `update_lightning_details` on success. -/
def createLightningPayment (request : CreatePaymentRequest) (payment : Payment)
    (db : Db) (now : Nat) : Except AppError PaymentCreationResult × Db :=
  let description := request.description.getD ("Payment " ++ toString payment.id)
  match lightningCreateInvoice request.amount description 3600 with
  | .error e =>
    (.error (.Lightning ("Failed to create Lightning invoice: " ++ e.message)), db)
  | .ok invoice =>
    let payments1 := updatePaymentsWhereId db.payments payment.id
      (fun p => paymentUpdateLightningDetailsRow p invoice.paymentRequest
        invoice.paymentHash now)
    let db1 := { db with payments := payments1 }
    (.ok
      { paymentId := payment.id
        status := PaymentStatus.Pending
        razorpayOrderId := none
        cryptoAddress := none
        lightningInvoice := some invoice.paymentRequest
        chain := some "lightning"
        expiresAt := some (oneHourFrom now) }, db1)

/-- `services/payment_processor.rs` `PaymentProcessor::create_payment`:
`PaymentRepository::create` persists the `Pending` row first, then the
method-specific branch runs against the database that already holds it. -/
def createPayment (cfg : ProcessorConfig) (orderResult : Except AppError String)
    (request : CreatePaymentRequest) (db : Db) (newId now : Nat) :
    Except AppError PaymentCreationResult × Db :=
  let payment := paymentCreateRow request.amount request.method newId now
  let db1 := { db with payments := db.payments ++ [payment] }
  match request.method with
  | .Card | .Upi | .NetBanking | .Wallet | .Emi =>
    createRazorpayPayment orderResult request payment db1 now
  | .Ethereum | .Polygon | .Bsc | .Arbitrum =>
    createEvmPayment cfg request payment db1 now
  | .Solana => createSolanaPayment request payment db1 now
  | .Lightning => createLightningPayment request payment db1 now

/-- The comparison primitive a verification site applies to the supplied
signature, read off the source text: `constantTime` for the `subtle`-backed
`Mac::verify_slice`, `rustStringEq` for Rust's default `String`/`str`
`PartialEq` (`==`). -/
inductive ComparisonKind
  | constantTime
  | rustStringEq
deriving DecidableEq, Repr

/-- The single-pass accumulator comparison `subtle`'s `ConstantTimeEq` (behind
`Mac::verify_slice`) performs on two byte strings: OR together the XOR of
every byte pair and test the accumulator against zero. -/
def ctEqBytes (a b : List Nat) : Bool :=
  a.length == b.length && (List.zipWith Nat.xor a b).foldl Nat.lor 0 == 0

/-- `crypto_utils/signature.rs` `HmacSignature::verify`: recompute the tag
with the abstract `macBytes` and compare with `Mac::verify_slice`
(constant-time); never an error for a valid key. -/
def hmacSignatureVerify (macBytes : List Nat → List Nat → List Nat)
    (message signature secret : List Nat) : Except AppError Bool :=
  .ok (ctEqBytes (macBytes secret message) signature)

/-- `services/razorpay/webhooks.rs`
`RazorpayWebhookVerifier::verify_webhook_signature`: hex-encode the HMAC of
the raw body (`mac secret payload` is that lower-case hex string) and compare
with `==` on `String`s; mismatch is the `WebhookVerification` error. -/
def verifyWebhookSignature (mac : String → String → String)
    (payload signature secret : String) : Except AppError Bool :=
  let expectedSignature := mac secret payload
  if expectedSignature == signature then .ok true
  else .error (.WebhookVerification "Invalid webhook signature")

/-- `RazorpayWebhookVerifier::verify_payment_signature`: the payload is the
pipe-joined `"{order_id}|{payment_id}"`, compared with `==` on `String`s. -/
def verifyPaymentSignature (mac : String → String → String)
    (orderId paymentId signature secret : String) : Except AppError Bool :=
  let payload := orderId ++ "|" ++ paymentId
  if mac secret payload == signature then .ok true
  else .error (.InvalidSignature "Payment signature verification failed")

/-- `RazorpayWebhookVerifier::verify_subscription_signature`: the payload is
`"{payment_id}|{subscription_id}"`, compared with `==` on `String`s. -/
def verifySubscriptionSignature (mac : String → String → String)
    (paymentId subscriptionId signature secret : String) : Except AppError Bool :=
  let payload := paymentId ++ "|" ++ subscriptionId
  if mac secret payload == signature then .ok true
  else .error (.InvalidSignature "Subscription signature verification failed")

/-- The comparison `verify_webhook_signature` performs
(`expected_signature == signature`, `services/razorpay/webhooks.rs` line 25). -/
def verifyWebhookSignatureComparison : ComparisonKind := .rustStringEq

/-- The comparison `verify_payment_signature` performs
(`expected_signature == signature`, `services/razorpay/webhooks.rs` line 51). -/
def verifyPaymentSignatureComparison : ComparisonKind := .rustStringEq

/-- The comparison `verify_subscription_signature` performs
(`expected_signature == signature`, `services/razorpay/webhooks.rs` line 77). -/
def verifySubscriptionSignatureComparison : ComparisonKind := .rustStringEq

/-- The comparison `HmacSignature::verify` performs
(`mac.verify_slice(signature)`, `crypto_utils/signature.rs` line 34). -/
def hmacSignatureVerifyComparison : ComparisonKind := .constantTime

/-- `models/webhook_event.rs` `RazorpayPaymentData`, the two fields the
reconciler reads. -/
structure RazorpayPaymentData where
  id : String
  orderId : Option String
deriving DecidableEq, Repr

/-- `models/webhook_event.rs` `RazorpayPaymentEntity`. -/
structure RazorpayPaymentEntity where
  entity : RazorpayPaymentData
deriving DecidableEq, Repr

/-- `models/webhook_event.rs` `RazorpayPaymentPayload` (the unused `order`
entity is omitted). -/
structure RazorpayPaymentPayload where
  payment : Option RazorpayPaymentEntity
deriving DecidableEq, Repr

/-- `models/webhook_event.rs` `RazorpayWebhookPayload`, the fields the
reconciler reads. -/
structure RazorpayWebhookPayload where
  event : String
  payload : RazorpayPaymentPayload
deriving DecidableEq, Repr

/-- One inbound delivery as the handler sees it.  serde parsing of the raw
body is carried as its results: `parsedOk` is whether
`serde_json::from_slice::<Value>` succeeded, `eventField` the string under
the `"event"` key, and `typedPayload` the result of the typed
`RazorpayWebhookPayload` parse (`none` = missing or ill-typed fields). -/
structure WebhookDelivery where
  body : String
  signatureHeader : Option String
  parsedOk : Bool
  eventField : Option String
  typedPayload : Option RazorpayWebhookPayload
deriving DecidableEq, Repr

/-- The HTTP status codes the webhook handler answers with. -/
inductive HttpCode
  | ok
  | badRequest
  | unauthorized
  | internalServerError
deriving DecidableEq, Repr

/-- `api/handlers/webhooks.rs` `WebhookResponse`. -/
structure WebhookResponse where
  success : Bool
  message : String
deriving DecidableEq, Repr

/-- `api/handlers/webhooks.rs` `process_razorpay_webhook`: typed parse, then
dispatch on the event string.  The result carries the touched payment id (if
any) and the payments table after the dispatch; the only error path is the
typed parse (every repository call in the model succeeds), matching the
source where the `?`-propagated failures are exactly serde and sqlx. -/
def processRazorpayWebhook (req : WebhookDelivery) (payments : List Payment)
    (now : Nat) : Except AppError (Option Nat × List Payment) :=
  match req.typedPayload with
  | none => .error (.Serialization "invalid webhook payload")
  | some webhook =>
    if webhook.event == "payment.authorized" || webhook.event == "payment.captured" then
      match webhook.payload.payment with
      | some paymentEntity =>
        match paymentEntity.entity.orderId with
        | some orderId =>
          match findByRazorpayOrderId payments orderId with
          | some payment =>
            let payments1 := updatePaymentsWhereId payments payment.id
              (fun p => paymentUpdateRazorpayDetailsRow p orderId
                (some paymentEntity.entity.id) none now)
            let newStatus :=
              if webhook.event == "payment.captured" then PaymentStatus.Completed
              else PaymentStatus.Processing
            let payments2 := updatePaymentsWhereId payments1 payment.id
              (fun p => paymentUpdateStatusRow p newStatus now)
            .ok (some payment.id, payments2)
          | none => .ok (none, payments)
        | none => .ok (none, payments)
      | none => .ok (none, payments)
    else if webhook.event == "payment.failed" then
      match webhook.payload.payment with
      | some paymentEntity =>
        match paymentEntity.entity.orderId with
        | some orderId =>
          match findByRazorpayOrderId payments orderId with
          | some payment =>
            let payments1 := updatePaymentsWhereId payments payment.id
              (fun p => paymentUpdateStatusRow p PaymentStatus.Failed now)
            .ok (some payment.id, payments1)
          | none => .ok (none, payments)
        | none => .ok (none, payments)
      | none => .ok (none, payments)
    else if webhook.event == "refund.created" || webhook.event == "refund.processed" then
      .ok (none, payments)
    else
      .ok (none, payments)

/-- `api/handlers/webhooks.rs` `razorpay_webhook`, the Razorpay reconciler
endpoint: require the signature header, parse the body, persist the
`WebhookEvent` (audit-first), verify the HMAC, then dispatch and record the
terminal status.  Returns the HTTP answer (`.error` = the non-2xx side of the
Rust handler's `Result`) and the database when the handler finishes. -/
def razorpayWebhook (secret : String) (mac : String → String → String)
    (req : WebhookDelivery) (db : Db) (newEventId now : Nat) :
    Except (HttpCode × WebhookResponse) WebhookResponse × Db :=
  match req.signatureHeader with
  | none => (.error (.badRequest, ⟨false, "Missing signature header"⟩), db)
  | some signature =>
    if req.parsedOk then
      let eventType := req.eventField.getD "unknown"
      let ev := webhookCreateRow eventType req.body (some signature) newEventId now
      let db1 := { db with webhookEvents := db.webhookEvents ++ [ev] }
      if (verifyWebhookSignature mac req.body signature secret).isOk then
        match processRazorpayWebhook req db1.payments now with
        | .ok (paymentId, payments2) =>
          let events3 := webhookUpdateStatusDb db1.webhookEvents newEventId
            WebhookStatus.Processed true paymentId none now
          (.ok ⟨true, "Webhook processed successfully"⟩,
            { db1 with payments := payments2, webhookEvents := events3 })
        | .error e =>
          let events3 := webhookUpdateStatusDb db1.webhookEvents newEventId
            WebhookStatus.Failed true none (some e.message) now
          (.error (.internalServerError, ⟨false, e.message⟩),
            { db1 with webhookEvents := events3 })
      else
        let events2 := webhookUpdateStatusDb db1.webhookEvents newEventId
          WebhookStatus.Failed false none (some "Invalid signature") now
        (.error (.unauthorized, ⟨false, "Invalid signature"⟩),
          { db1 with webhookEvents := events2 })
    else
      (.error (.badRequest, ⟨false, "Invalid JSON"⟩), db)

/-- C1: for the EVM adapter, `verify_payment` returns a result whose
`is_valid` is `receipt.success AND tx.to == expected_to AND
tx.value >= expected_amount`, and whose `confirmations` is
`current_block_height - receipt.block_number`, `0` when the transaction is
unmined (no receipt, or a receipt with no block number). -/
theorem evm_verify_payment_result (tx : EvmTransaction) (receipt? : Option EvmReceipt)
    (currentBlock : Nat) (expectedTo : String) (expectedAmountWei : Nat) :
    ∃ v, evmVerifyPayment (some tx) receipt? currentBlock expectedTo expectedAmountWei =
        Except.ok v ∧
      (v.is_valid = true ↔
        (∃ r, receipt? = some r ∧ r.status = some 1) ∧
          tx.toAddr = some expectedTo ∧ expectedAmountWei ≤ tx.value) ∧
      (∀ r blockNumber, receipt? = some r → r.blockNumber = some blockNumber →
        v.confirmations = currentBlock - blockNumber) ∧
      (receipt? = none → v.confirmations = 0) ∧
      (∀ r, receipt? = some r → r.blockNumber = none → v.confirmations = 0) := by
  refine ⟨_, rfl, ?_, ?_, ?_, ?_⟩
  · cases receipt? with
    | none => simp [evmVerifyPayment]
    | some r =>
      simp only [evmVerifyPayment, Option.map_some', Option.getD_some,
        Bool.and_eq_true, beq_iff_eq, decide_eq_true_eq, Option.some.injEq]
      constructor
      · rintro ⟨⟨hto, hamt⟩, hst⟩
        exact ⟨⟨r, rfl, hst⟩, hto, hamt⟩
      · rintro ⟨⟨r', hr', hst⟩, hto, hamt⟩
        cases hr'
        exact ⟨⟨hto, hamt⟩, hst⟩
  · intro r blockNumber hr hbn
    subst hr
    simp [evmVerifyPayment, hbn]
  · intro h
    subst h
    simp [evmVerifyPayment]
  · intro r hr hbn
    subst hr
    simp [evmVerifyPayment, hbn]

/-- C2's tier table read literally, as the claim words it: the thresholds
applied to the raw smallest-unit integer amount.  Built from the claim for
comparison against the source's policy, not from the source. -/
def claimTierTableRequiredConfirmations (chain : ChainType) (amount : Nat) : Nat :=
  match chain with
  | .Ethereum => if 10 < amount then 12 else if 1 < amount then 6 else 3
  | .Polygon | .Bsc => if 10 < amount then 50 else if 1 < amount then 25 else 10
  | .Arbitrum => if 10 < amount then 20 else 5
  | .Solana => if 100 < amount then 32 else if 10 < amount then 16 else 1
  | .Bitcoin => 3

/-- C2 as frozen is false on the code: at the claim's own example — an
Ethereum payment of 500000000000000000 wei — the literal raw-amount table
demands 12 confirmations while the code returns 3 (the code tiers on the
amount converted to whole coins, so the claim's general table and its
parenthetical instance contradict each other). -/
theorem tier_table_raw_amount_counterexample :
    claimTierTableRequiredConfirmations ChainType.Ethereum 500000000000000000 = 12 ∧
    ethereumGetRequiredConfirmations ChainType.Ethereum 500000000000000000 = 3 ∧
    ethereumGetRequiredConfirmations ChainType.Ethereum 500000000000000000 ≠
      claimTierTableRequiredConfirmations ChainType.Ethereum 500000000000000000 := by
  refine ⟨by decide, by decide, by decide⟩

/-- The exact wei boundary of the top tier: `eth_amount > 10.0` holds iff
the amount is at least `10^19 + 889` wei. -/
theorem ethAmountGtTen_iff (w : Nat) : ethAmountGtTen w = true ↔ 10 ^ 19 + 889 ≤ w := by
  unfold ethAmountGtTen
  rw [decide_eq_true_eq]
  norm_num
  omega

/-- The exact wei boundary of the middle tier: `eth_amount > 1.0` holds iff
the amount is at least `10^18 + 112` wei. -/
theorem ethAmountGtOne_iff (w : Nat) : ethAmountGtOne w = true ↔ 10 ^ 18 + 112 ≤ w := by
  unfold ethAmountGtOne
  rw [decide_eq_true_eq]
  norm_num
  omega

/-- `ethAmountGtTen`, rewritten at its wei boundary. -/
theorem ethAmountGtTen_eq (w : Nat) :
    ethAmountGtTen w = decide (10 ^ 19 + 889 ≤ w) := by
  rw [Bool.eq_iff_iff, ethAmountGtTen_iff, decide_eq_true_eq]

/-- `ethAmountGtOne`, rewritten at its wei boundary. -/
theorem ethAmountGtOne_eq (w : Nat) :
    ethAmountGtOne w = decide (10 ^ 18 + 112 ≤ w) := by
  rw [Bool.eq_iff_iff, ethAmountGtOne_iff, decide_eq_true_eq]

/-- C2 amended: the tier thresholds are the whole-coin figures as seen
through the code's `f64` conversion.  On the EVM chains the conversion's
rounding puts the effective boundaries half an ulp above the round numbers:
the top tier starts at `10^19 + 889` wei (amounts up to 888 wei above 10 ETH
round to `10.0` and fall through) and the middle tier at `10^18 + 112` wei
(111 wei of slack above 1 ETH); on Solana the `f64` path is exact, so the
boundaries are `100·10^9` and `10·10^9` lamports precisely.  Stated from the
amended claim's words, for comparison with the code. -/
def amendedTierTableRequiredConfirmations (chain : ChainType) (amount : Nat) : Nat :=
  match chain with
  | .Ethereum =>
    if 10 ^ 19 + 889 ≤ amount then 12 else if 10 ^ 18 + 112 ≤ amount then 6 else 3
  | .Polygon | .Bsc =>
    if 10 ^ 19 + 889 ≤ amount then 50 else if 10 ^ 18 + 112 ≤ amount then 25 else 10
  | .Arbitrum =>
    if 10 ^ 19 + 889 ≤ amount then 20 else 5
  | .Solana =>
    if 100 * 10 ^ 9 < amount then 32 else if 10 * 10 ^ 9 < amount then 16 else 1
  | .Bitcoin => 3

/-- C2 (amended): for every chain and amount, `required_confirmations`
returns the tier-table value keyed on the amount converted to whole coins
through the code's `f64` path, whose effective wei boundaries are
`10^19 + 889` and `10^18 + 112` on the EVM chains (the conversion rounds
amounts within half an ulp of 10 ETH / 1 ETH down to the boundary, as the
two instances just above `10^19` wei show) and exactly `100·10^9` /
`10·10^9` lamports on Solana; in particular an Ethereum payment of
500000000000000000 wei (0.5 ETH) requires 3 confirmations. -/
theorem required_confirmations_tiers (chain : ChainType) (amount : Nat) :
    (chain ≠ ChainType.Solana →
      ethereumGetRequiredConfirmations chain amount =
        amendedTierTableRequiredConfirmations chain amount) ∧
    solanaGetRequiredConfirmations amount =
      amendedTierTableRequiredConfirmations ChainType.Solana amount ∧
    ethereumGetRequiredConfirmations ChainType.Ethereum (10 ^ 19 + 1) = 6 ∧
    ethereumGetRequiredConfirmations ChainType.Ethereum (10 ^ 19 + 889) = 12 ∧
    ethereumGetRequiredConfirmations ChainType.Ethereum 500000000000000000 = 3 := by
  refine ⟨?_, rfl, by decide, by decide, by decide⟩
  intro h
  cases chain with
  | Solana => exact absurd rfl h
  | _ =>
    simp [ethereumGetRequiredConfirmations, amendedTierTableRequiredConfirmations,
      ethAmountGtTen_eq, ethAmountGtOne_eq]

/-- Reduction of `verifyCryptoPayment` on the EVM branch once the payment's
chain and deposit address are in place and the adapter is configured. -/
theorem verifyCryptoPayment_evm_eq (cfg : ProcessorConfig) (world : CryptoWorld)
    (p : Payment) (txHash : String) (now : Nat) (chainStr : String)
    (chain : ChainType) (toAddress : String)
    (hchain : p.cryptoChain = some chainStr)
    (hparse : chainTypeFromStr chainStr = some chain)
    (hevm : isEvmChain chain = true)
    (hcfg : evmServiceConfigured cfg chain = true)
    (haddr : p.cryptoToAddress = some toAddress) :
    verifyCryptoPayment cfg world p txHash now =
      match evmVerifyPayment world.evmTx? world.evmReceipt? world.evmCurrentBlock
          toAddress p.amount with
      | .error e => (.error e, p)
      | .ok verification =>
        if verification.is_valid then
          let p2 := paymentUpdateStatusRow
            (paymentUpdateCryptoDetailsRow p (some txHash)
              (some verification.from_address) none none now)
            (if ethereumGetRequiredConfirmations chain p.amount ≤ verification.confirmations
             then PaymentStatus.Completed else PaymentStatus.Processing) now
          (.ok p2, p2)
        else (.error (.Payment "Payment verification failed"), p) := by
  cases chain <;> simp_all [verifyCryptoPayment, isEvmChain]

/-- Reduction of `verifyCryptoPayment` on the Solana branch. -/
theorem verifyCryptoPayment_solana_eq (cfg : ProcessorConfig) (world : CryptoWorld)
    (p : Payment) (txHash : String) (now : Nat) (chainStr : String)
    (toAddress : String)
    (hchain : p.cryptoChain = some chainStr)
    (hparse : chainTypeFromStr chainStr = some ChainType.Solana)
    (haddr : p.cryptoToAddress = some toAddress) :
    verifyCryptoPayment cfg world p txHash now =
      match solanaVerifyPayment world.solana txHash toAddress p.amount with
      | .error e => (.error e, p)
      | .ok verification =>
        if verification.is_valid then
          let p2 := paymentUpdateStatusRow
            (paymentUpdateCryptoDetailsRow p (some txHash) none none none now)
            (if solanaGetRequiredConfirmations p.amount ≤ verification.confirmations
             then PaymentStatus.Completed else PaymentStatus.Processing) now
          (.ok p2, p2)
        else (.error (.Payment "Payment verification failed"), p) := by
  simp [verifyCryptoPayment, hchain, hparse, haddr]

/-- A processor with every optional EVM adapter configured. -/
def allEvmConfigured : ProcessorConfig :=
  { hasPolygon := true, hasBsc := true, hasArbitrum := true }

/-- A crypto payment on Ethereum, deposit address assigned, awaiting proof. -/
def ethPendingPayment : Payment :=
  { id := 1
    amount := 500000000000000000
    status := PaymentStatus.Pending
    method := PaymentMethod.Ethereum
    razorpayPaymentId := none
    razorpayOrderId := none
    razorpaySignature := none
    cryptoTxHash := none
    cryptoFromAddress := none
    cryptoToAddress := some "0xdeposit"
    cryptoChain := some "ethereum"
    lightningInvoice := none
    lightningPaymentHash := none
    expiresAt := none
    completedAt := none
    createdAt := 10
    updatedAt := 10 }

/-- A chain world in which the submitted transaction pays the right address
and amount but its receipt records on-chain failure (`status = Some 0`), so
the adapter reports `is_valid = false`. -/
def failedReceiptWorld : CryptoWorld :=
  { evmTx? := some ⟨"0xpayer", some "0xdeposit", 500000000000000000⟩
    evmReceipt? := some ⟨some 0, some 90⟩
    evmCurrentBlock := 100
    solana := ⟨none, none⟩ }

/-- C3 fails as stated: on a proof with `is_valid = false` the code does not
move the Payment to `Failed` — it returns the "Payment verification failed"
error and leaves the status untouched (`Pending` here). -/
theorem invalid_proof_no_failed_status_counterexample :
    (verifyCryptoPayment allEvmConfigured failedReceiptWorld ethPendingPayment
        "0xhash" 50).1 =
      Except.error (AppError.Payment "Payment verification failed") ∧
    (verifyCryptoPayment allEvmConfigured failedReceiptWorld ethPendingPayment
        "0xhash" 50).2 = ethPendingPayment ∧
    (verifyCryptoPayment allEvmConfigured failedReceiptWorld ethPendingPayment
        "0xhash" 50).2.status ≠ PaymentStatus.Failed := by
  refine ⟨rfl, rfl, by decide⟩

/-- C3 (amended): after `verify_crypto_payment`, the Payment is `Completed`
when the proof is valid with `confirmations >= required_confirmations` for
the payment's chain and amount, `Processing` when the proof is valid with
fewer confirmations; a proof with `is_valid = false` yields an error with the
Payment left unchanged (it is never set to `Failed` on this path). -/
theorem verify_crypto_payment_status_policy (cfg : ProcessorConfig)
    (world : CryptoWorld) (p : Payment) (txHash : String) (now : Nat) :
    (∀ chainStr chain toAddress v,
      p.cryptoChain = some chainStr →
      chainTypeFromStr chainStr = some chain →
      isEvmChain chain = true →
      evmServiceConfigured cfg chain = true →
      p.cryptoToAddress = some toAddress →
      evmVerifyPayment world.evmTx? world.evmReceipt? world.evmCurrentBlock
          toAddress p.amount = Except.ok v →
      ((v.is_valid = true →
          (verifyCryptoPayment cfg world p txHash now).2.status =
            (if ethereumGetRequiredConfirmations chain p.amount ≤ v.confirmations
             then PaymentStatus.Completed else PaymentStatus.Processing)) ∧
       (v.is_valid = false →
          (verifyCryptoPayment cfg world p txHash now).1 =
            Except.error (AppError.Payment "Payment verification failed") ∧
          (verifyCryptoPayment cfg world p txHash now).2 = p))) ∧
    (∀ chainStr toAddress v,
      p.cryptoChain = some chainStr →
      chainTypeFromStr chainStr = some ChainType.Solana →
      p.cryptoToAddress = some toAddress →
      solanaVerifyPayment world.solana txHash toAddress p.amount = Except.ok v →
      ((v.is_valid = true →
          (verifyCryptoPayment cfg world p txHash now).2.status =
            (if solanaGetRequiredConfirmations p.amount ≤ v.confirmations
             then PaymentStatus.Completed else PaymentStatus.Processing)) ∧
       (v.is_valid = false →
          (verifyCryptoPayment cfg world p txHash now).1 =
            Except.error (AppError.Payment "Payment verification failed") ∧
          (verifyCryptoPayment cfg world p txHash now).2 = p))) := by
  constructor
  · intro chainStr chain toAddress v hchain hparse hevm hcfg haddr hok
    rw [verifyCryptoPayment_evm_eq cfg world p txHash now chainStr chain toAddress
      hchain hparse hevm hcfg haddr, hok]
    constructor
    · intro hvalid
      simp [hvalid, paymentUpdateStatusRow]
    · intro hvalid
      simp [hvalid]
  · intro chainStr toAddress v hchain hparse haddr hok
    rw [verifyCryptoPayment_solana_eq cfg world p txHash now chainStr toAddress
      hchain hparse haddr, hok]
    constructor
    · intro hvalid
      simp [hvalid, paymentUpdateStatusRow]
    · intro hvalid
      simp [hvalid]

/-- `verify_crypto_payment` either leaves the stored row untouched or
succeeds, returning exactly the row it persisted. -/
theorem verifyCryptoPayment_cases (cfg : ProcessorConfig) (world : CryptoWorld)
    (p : Payment) (txHash : String) (now : Nat) :
    (verifyCryptoPayment cfg world p txHash now).2 = p ∨
    ∃ pay, verifyCryptoPayment cfg world p txHash now = (Except.ok pay, pay) := by
  unfold verifyCryptoPayment
  repeat' split
  all_goals first
    | (left; rfl)
    | (right; exact ⟨_, rfl⟩)

/-- C4: whenever proof verification inside `verify_crypto_payment` fails —
the adapter reports `is_valid = false`, or the adapter call itself errors —
the call returns an error, and on every error the Payment is returned
completely unchanged (no status update, no crypto-detail update), so a later
valid proof can still transition it. -/
theorem verify_crypto_payment_failure_frame (cfg : ProcessorConfig)
    (world : CryptoWorld) (p : Payment) (txHash : String) (now : Nat) :
    (∀ e, (verifyCryptoPayment cfg world p txHash now).1 = Except.error e →
      (verifyCryptoPayment cfg world p txHash now).2 = p) ∧
    (∀ chainStr chain toAddress v,
      p.cryptoChain = some chainStr →
      chainTypeFromStr chainStr = some chain →
      isEvmChain chain = true →
      evmServiceConfigured cfg chain = true →
      p.cryptoToAddress = some toAddress →
      evmVerifyPayment world.evmTx? world.evmReceipt? world.evmCurrentBlock
          toAddress p.amount = Except.ok v →
      v.is_valid = false →
      (verifyCryptoPayment cfg world p txHash now).1 =
        Except.error (AppError.Payment "Payment verification failed")) ∧
    (∀ chainStr chain toAddress e,
      p.cryptoChain = some chainStr →
      chainTypeFromStr chainStr = some chain →
      isEvmChain chain = true →
      evmServiceConfigured cfg chain = true →
      p.cryptoToAddress = some toAddress →
      evmVerifyPayment world.evmTx? world.evmReceipt? world.evmCurrentBlock
          toAddress p.amount = Except.error e →
      (verifyCryptoPayment cfg world p txHash now).1 = Except.error e) ∧
    (∀ chainStr toAddress v,
      p.cryptoChain = some chainStr →
      chainTypeFromStr chainStr = some ChainType.Solana →
      p.cryptoToAddress = some toAddress →
      solanaVerifyPayment world.solana txHash toAddress p.amount = Except.ok v →
      v.is_valid = false →
      (verifyCryptoPayment cfg world p txHash now).1 =
        Except.error (AppError.Payment "Payment verification failed")) ∧
    (∀ chainStr toAddress e,
      p.cryptoChain = some chainStr →
      chainTypeFromStr chainStr = some ChainType.Solana →
      p.cryptoToAddress = some toAddress →
      solanaVerifyPayment world.solana txHash toAddress p.amount = Except.error e →
      (verifyCryptoPayment cfg world p txHash now).1 = Except.error e) := by
  refine ⟨?_, ?_, ?_, ?_, ?_⟩
  · intro e h
    rcases verifyCryptoPayment_cases cfg world p txHash now with h2 | ⟨pay, h2⟩
    · exact h2
    · rw [h2] at h
      simp at h
  · intro chainStr chain toAddress v hchain hparse hevm hcfg haddr hok hvalid
    rw [verifyCryptoPayment_evm_eq cfg world p txHash now chainStr chain toAddress
      hchain hparse hevm hcfg haddr, hok]
    simp [hvalid]
  · intro chainStr chain toAddress e hchain hparse hevm hcfg haddr herr
    rw [verifyCryptoPayment_evm_eq cfg world p txHash now chainStr chain toAddress
      hchain hparse hevm hcfg haddr, herr]
  · intro chainStr toAddress v hchain hparse haddr hok hvalid
    rw [verifyCryptoPayment_solana_eq cfg world p txHash now chainStr toAddress
      hchain hparse haddr, hok]
    simp [hvalid]
  · intro chainStr toAddress e hchain hparse haddr herr
    rw [verifyCryptoPayment_solana_eq cfg world p txHash now chainStr toAddress
      hchain hparse haddr, herr]

/-- C5: the Solana adapter's `verify_payment` verdict is
`is_valid = (meta present with no error)`, and it does not depend on the
expected recipient or expected amount: two calls on the same fetched
transaction that differ only in those two arguments return identical
results. -/
theorem solana_verify_payment_ignores_expectations (world : SolanaRpcWorld)
    (sig toOne toTwo : String) (amtOne amtTwo : Nat) :
    solanaVerifyPayment world sig toOne amtOne =
      solanaVerifyPayment world sig toTwo amtTwo ∧
    (∀ tx, world.tx? = some tx →
      ∃ v, solanaVerifyPayment world sig toOne amtOne = Except.ok v ∧
        (v.is_valid = true ↔ ∃ m, tx.meta = some m ∧ m.err = none)) := by
  constructor
  · rfl
  · intro tx htx
    unfold solanaVerifyPayment
    rw [htx]
    refine ⟨_, rfl, ?_⟩
    cases hm : tx.meta with
    | none => simp
    | some m => simp [Option.isNone_iff_eq_none]

/-- Identity maps over a list whose elements the function fixes. -/
theorem list_map_self (l : List α) (f : α → α) (h : ∀ x ∈ l, f x = x) :
    l.map f = l := by
  induction l with
  | nil => rfl
  | cons a t ih =>
    rw [List.map_cons, h a (List.mem_cons_self a t),
      ih fun x hx => h x (List.mem_cons_of_mem a hx)]

/-- C6: a Razorpay delivery whose HMAC signature is invalid is persisted
before verification and answered with 401: the handler returns unauthorized,
no Payment row is touched, and the one new `WebhookEvent` ends `Failed` with
`signature_verified = false` — event dispatch is never attempted. -/
theorem razorpay_webhook_invalid_signature (secret : String)
    (mac : String → String → String) (req : WebhookDelivery) (db : Db)
    (newEventId now : Nat) (signature : String)
    (hsig : req.signatureHeader = some signature)
    (hparsed : req.parsedOk = true)
    (hbad : mac secret req.body ≠ signature)
    (hfresh : ∀ e ∈ db.webhookEvents, e.id ≠ newEventId) :
    (razorpayWebhook secret mac req db newEventId now).1 =
      Except.error (HttpCode.unauthorized, ⟨false, "Invalid signature"⟩) ∧
    (razorpayWebhook secret mac req db newEventId now).2.payments = db.payments ∧
    (razorpayWebhook secret mac req db newEventId now).2.webhookEvents =
      db.webhookEvents ++
        [{ id := newEventId
           eventType := req.eventField.getD "unknown"
           paymentId := none
           status := WebhookStatus.Failed
           payload := req.body
           signature := some signature
           signatureVerified := false
           errorMessage := some "Invalid signature"
           processedAt := some now
           createdAt := now }] := by
  have hver : (verifyWebhookSignature mac req.body signature secret).isOk = false := by
    simp [verifyWebhookSignature, hbad, Except.isOk, Except.toBool]
  have hrun : razorpayWebhook secret mac req db newEventId now =
      (Except.error (HttpCode.unauthorized, ⟨false, "Invalid signature"⟩),
        { db with webhookEvents := webhookUpdateStatusDb (db.webhookEvents ++ [webhookCreateRow (req.eventField.getD "unknown") req.body (some signature) newEventId now]) newEventId WebhookStatus.Failed false none (some "Invalid signature") now }) := by
    unfold razorpayWebhook
    rw [hsig]
    simp [hparsed, hver]
  rw [hrun]
  refine ⟨rfl, rfl, ?_⟩
  unfold webhookUpdateStatusDb
  rw [List.map_append, list_map_self db.webhookEvents _ ?_]
  · simp [webhookCreateRow, webhookUpdateStatusRow]
  · intro e he
    simp [hfresh e he]

/-- A stand-in for the hex-encoded HMAC used to run the handler on concrete
deliveries: any injective-enough keyed function exercises the comparison and
dispatch logic, which never inspect the digest's structure. -/
def concatMac (secret payload : String) : String := secret ++ ":" ++ payload

/-- C6 witness: a concrete delivery with a wrong signature is stored, marked
`Failed`/unverified, answered 401, and no payment is touched. -/
theorem razorpay_webhook_invalid_signature_witness :
    (razorpayWebhook "whsec" concatMac
        ⟨"body-bytes", some "bad-signature", true, some "payment.captured", none⟩
        ⟨[], [], [], []⟩ 7 3).1 =
      Except.error (HttpCode.unauthorized, ⟨false, "Invalid signature"⟩) ∧
    (razorpayWebhook "whsec" concatMac
        ⟨"body-bytes", some "bad-signature", true, some "payment.captured", none⟩
        ⟨[], [], [], []⟩ 7 3).2.payments = ([] : List Payment) ∧
    (razorpayWebhook "whsec" concatMac
        ⟨"body-bytes", some "bad-signature", true, some "payment.captured", none⟩
        ⟨[], [], [], []⟩ 7 3).2.webhookEvents =
      [{ id := 7
         eventType := "payment.captured"
         paymentId := none
         status := WebhookStatus.Failed
         payload := "body-bytes"
         signature := some "bad-signature"
         signatureVerified := false
         errorMessage := some "Invalid signature"
         processedAt := some 3
         createdAt := 3 }] := by
  have h := razorpay_webhook_invalid_signature "whsec" concatMac
    ⟨"body-bytes", some "bad-signature", true, some "payment.captured", none⟩
    ⟨[], [], [], []⟩ 7 3 "bad-signature" rfl rfl (by decide)
    (fun e he => absurd he (List.not_mem_nil e))
  simpa using h

/-- `update_razorpay_details` never changes the row's id. -/
theorem paymentUpdateRazorpayDetailsRow_id (p : Payment) (orderId : String)
    (paymentId signature : Option String) (now : Nat) :
    (paymentUpdateRazorpayDetailsRow p orderId paymentId signature now).id = p.id := rfl

/-- `update_status` never changes the row's id. -/
theorem paymentUpdateStatusRow_id (p : Payment) (s : PaymentStatus) (now : Nat) :
    (paymentUpdateStatusRow p s now).id = p.id := rfl

/-- Membership in an `UPDATE ... WHERE id` result, traced back to the
original row. -/
theorem updatePaymentsWhereId_mem (payments : List Payment) (id : Nat)
    (f : Payment → Payment) (q : Payment)
    (hq : q ∈ updatePaymentsWhereId payments id f) :
    ∃ r, r ∈ payments ∧ ((r.id = id ∧ q = f r) ∨ (r.id ≠ id ∧ q = r)) := by
  rcases List.mem_map.1 hq with ⟨r, hr, he⟩
  by_cases h : r.id = id
  · exact ⟨r, hr, Or.inl ⟨h, by rw [← he, if_pos h]⟩⟩
  · exact ⟨r, hr, Or.inr ⟨h, by rw [← he, if_neg h]⟩⟩

/-- A fiat payment already settled: `Completed` at time 100 with its
Razorpay order and payment ids attached. -/
def completedCardPayment : Payment :=
  { id := 1
    amount := 1000
    status := PaymentStatus.Completed
    method := PaymentMethod.Card
    razorpayPaymentId := some "pay_1"
    razorpayOrderId := some "order_1"
    razorpaySignature := none
    cryptoTxHash := none
    cryptoFromAddress := none
    cryptoToAddress := none
    cryptoChain := none
    lightningInvoice := none
    lightningPaymentHash := none
    expiresAt := none
    completedAt := some 100
    createdAt := 50
    updatedAt := 100 }

/-- A byte-identical, validly-signed replay of the `payment.captured`
delivery for `completedCardPayment`'s order. -/
def capturedReplay : WebhookDelivery :=
  { body := "captured-body"
    signatureHeader := some (concatMac "whsec" "captured-body")
    parsedOk := true
    eventField := some "payment.captured"
    typedPayload := some ⟨"payment.captured", ⟨some ⟨⟨"pay_1", some "order_1"⟩⟩⟩⟩ }

/-- The store holding only the already-completed payment. -/
def replayDb : Db := ⟨[completedCardPayment], [], [], []⟩

/-- C7 fails as stated: the replay is processed successfully and the status
value stays `Completed`, but `completed_at` does not remain as it was — the
handler re-runs `update_status(Completed)`, which stamps `completed_at` with
the replay's processing time (200 here, where the original was 100). -/
theorem webhook_replay_overwrites_completed_at_counterexample :
    (razorpayWebhook "whsec" concatMac capturedReplay replayDb 9 200).1 =
      Except.ok ⟨true, "Webhook processed successfully"⟩ ∧
    ((razorpayWebhook "whsec" concatMac capturedReplay replayDb 9 200).2.payments.map
      Payment.status) = [PaymentStatus.Completed] ∧
    ((razorpayWebhook "whsec" concatMac capturedReplay replayDb 9 200).2.payments.map
      Payment.completedAt) = [some 200] ∧
    completedCardPayment.completedAt = some 100 := by
  exact ⟨rfl, rfl, rfl, rfl⟩

/-- C7 (amended): replaying an identical, validly-signed `payment.captured`
delivery whose linked Payment is already `Completed` succeeds (no error) and
leaves the status value `Completed` — but it is not a pure no-op on the row:
the re-applied update overwrites `completed_at` with the replay's processing
time.  Rows with other ids are untouched. -/
theorem webhook_captured_replay (secret : String)
    (mac : String → String → String) (req : WebhookDelivery) (db : Db)
    (newEventId now : Nat) (signature : String) (w : RazorpayWebhookPayload)
    (ent : RazorpayPaymentEntity) (orderId : String) (p : Payment)
    (hsig : req.signatureHeader = some signature)
    (hparsed : req.parsedOk = true)
    (hvalid : mac secret req.body = signature)
    (htyped : req.typedPayload = some w)
    (hevent : w.event = "payment.captured")
    (hpay : w.payload.payment = some ent)
    (hoid : ent.entity.orderId = some orderId)
    (hfound : findByRazorpayOrderId db.payments orderId = some p)
    (_hdone : p.status = PaymentStatus.Completed) :
    (razorpayWebhook secret mac req db newEventId now).1 =
      Except.ok ⟨true, "Webhook processed successfully"⟩ ∧
    (∀ q ∈ (razorpayWebhook secret mac req db newEventId now).2.payments,
      q.id = p.id → q.status = PaymentStatus.Completed ∧ q.completedAt = some now) ∧
    (∀ q ∈ (razorpayWebhook secret mac req db newEventId now).2.payments,
      q.id ≠ p.id → q ∈ db.payments) := by
  have hver : (verifyWebhookSignature mac req.body signature secret).isOk = true := by
    simp [verifyWebhookSignature, hvalid, Except.isOk, Except.toBool]
  have hproc : processRazorpayWebhook req db.payments now =
      Except.ok (some p.id,
        updatePaymentsWhereId
          (updatePaymentsWhereId db.payments p.id
            (fun q => paymentUpdateRazorpayDetailsRow q orderId (some ent.entity.id) none now))
          p.id (fun q => paymentUpdateStatusRow q PaymentStatus.Completed now)) := by
    unfold processRazorpayWebhook
    rw [htyped]
    simp [hevent, hpay, hoid, hfound]
  have hrun : (razorpayWebhook secret mac req db newEventId now).1 =
        Except.ok ⟨true, "Webhook processed successfully"⟩ ∧
      (razorpayWebhook secret mac req db newEventId now).2.payments =
        updatePaymentsWhereId
          (updatePaymentsWhereId db.payments p.id
            (fun q => paymentUpdateRazorpayDetailsRow q orderId (some ent.entity.id) none now))
          p.id (fun q => paymentUpdateStatusRow q PaymentStatus.Completed now) := by
    unfold razorpayWebhook
    rw [hsig]
    simp [hparsed, hver, hproc]
  refine ⟨hrun.1, ?_, ?_⟩
  · intro q hq hid
    rw [hrun.2] at hq
    rcases updatePaymentsWhereId_mem _ _ _ _ hq with ⟨r, hrmem, ⟨_, rfl⟩ | ⟨hrid, rfl⟩⟩
    · constructor
      · rfl
      · simp [paymentUpdateStatusRow, coalesce]
    · exact absurd hid hrid
  · intro q hq hid
    rw [hrun.2] at hq
    rcases updatePaymentsWhereId_mem _ _ _ _ hq with ⟨r, hr, ⟨hrid, rfl⟩ | ⟨_, rfl⟩⟩
    · rw [paymentUpdateStatusRow_id] at hid
      rcases updatePaymentsWhereId_mem _ _ _ _ hr with ⟨s, _, ⟨hsid, rfl⟩ | ⟨_, rfl⟩⟩
      · rw [paymentUpdateRazorpayDetailsRow_id] at hid
        exact absurd hsid hid
      · exact absurd hrid hid
    · rcases updatePaymentsWhereId_mem _ _ _ _ hr with ⟨s, hs, ⟨hsid, rfl⟩ | ⟨_, rfl⟩⟩
      · rw [paymentUpdateRazorpayDetailsRow_id] at hid
        exact absurd hsid hid
      · exact hs

/-- C7 witness: the concrete replay run, through the amended theorem. -/
theorem webhook_captured_replay_witness :
    (razorpayWebhook "whsec" concatMac capturedReplay replayDb 9 200).1 =
      Except.ok ⟨true, "Webhook processed successfully"⟩ ∧
    (∀ q ∈ (razorpayWebhook "whsec" concatMac capturedReplay replayDb 9 200).2.payments,
      q.id = completedCardPayment.id →
        q.status = PaymentStatus.Completed ∧ q.completedAt = some 200) ∧
    (∀ q ∈ (razorpayWebhook "whsec" concatMac capturedReplay replayDb 9 200).2.payments,
      q.id ≠ completedCardPayment.id → q ∈ replayDb.payments) :=
  webhook_captured_replay "whsec" concatMac capturedReplay replayDb 9 200
    (concatMac "whsec" "captured-body") ⟨"payment.captured", ⟨some ⟨⟨"pay_1", some "order_1"⟩⟩⟩⟩
    ⟨⟨"pay_1", some "order_1"⟩⟩ "order_1" completedCardPayment
    rfl rfl rfl rfl rfl rfl rfl rfl rfl

/-- A validly-signed delivery whose event type none of the dispatch arms
recognize. -/
def unknownEventDelivery : WebhookDelivery :=
  { body := "invoice-body"
    signatureHeader := some (concatMac "whsec" "invoice-body")
    parsedOk := true
    eventField := some "invoice.paid"
    typedPayload := some ⟨"invoice.paid", ⟨none⟩⟩ }

/-- C9 fails as stated: a validly-signed delivery with the unrecognized event
`invoice.paid` is a no-op that returns success — but its `WebhookEvent` ends
`Processed`, not `Ignored` (the `Ignored` status exists and is never
assigned anywhere in the handler). -/
theorem unrecognized_event_status_counterexample :
    (razorpayWebhook "whsec" concatMac unknownEventDelivery ⟨[], [], [], []⟩ 4 60).1 =
      Except.ok ⟨true, "Webhook processed successfully"⟩ ∧
    ((razorpayWebhook "whsec" concatMac unknownEventDelivery ⟨[], [], [], []⟩ 4 60).2.webhookEvents.map
      WebhookEvent.status) = [WebhookStatus.Processed] ∧
    WebhookStatus.Processed ≠ WebhookStatus.Ignored := by
  exact ⟨rfl, rfl, by decide⟩

/-- C9 (amended): for every validly-signed delivery whose typed payload
parses but whose event type is not one of `payment.authorized`,
`payment.captured`, `payment.failed`, `refund.created`, `refund.processed`,
processing is a no-op that never returns an error: the handler answers
success, no Payment is mutated, and the `WebhookEvent` is recorded with
terminal status `Processed` (with `signature_verified = true` and no linked
payment) — not `Ignored`, which the code never assigns. -/
theorem webhook_unrecognized_event_processed (secret : String)
    (mac : String → String → String) (req : WebhookDelivery) (db : Db)
    (newEventId now : Nat) (signature : String) (w : RazorpayWebhookPayload)
    (hsig : req.signatureHeader = some signature)
    (hparsed : req.parsedOk = true)
    (hvalid : mac secret req.body = signature)
    (htyped : req.typedPayload = some w)
    (hu1 : w.event ≠ "payment.authorized")
    (hu2 : w.event ≠ "payment.captured")
    (hu3 : w.event ≠ "payment.failed")
    (hu4 : w.event ≠ "refund.created")
    (hu5 : w.event ≠ "refund.processed")
    (hfresh : ∀ e ∈ db.webhookEvents, e.id ≠ newEventId) :
    (razorpayWebhook secret mac req db newEventId now).1 =
      Except.ok ⟨true, "Webhook processed successfully"⟩ ∧
    (razorpayWebhook secret mac req db newEventId now).2.payments = db.payments ∧
    (razorpayWebhook secret mac req db newEventId now).2.webhookEvents =
      db.webhookEvents ++
        [{ id := newEventId
           eventType := req.eventField.getD "unknown"
           paymentId := none
           status := WebhookStatus.Processed
           payload := req.body
           signature := some signature
           signatureVerified := true
           errorMessage := none
           processedAt := some now
           createdAt := now }] := by
  have hver : (verifyWebhookSignature mac req.body signature secret).isOk = true := by
    simp [verifyWebhookSignature, hvalid, Except.isOk, Except.toBool]
  have hproc : processRazorpayWebhook req db.payments now =
      Except.ok (none, db.payments) := by
    unfold processRazorpayWebhook
    rw [htyped]
    simp [hu1, hu2, hu3, hu4, hu5]
  have hrun : razorpayWebhook secret mac req db newEventId now =
      (Except.ok ⟨true, "Webhook processed successfully"⟩,
        { db with webhookEvents := webhookUpdateStatusDb (db.webhookEvents ++ [webhookCreateRow (req.eventField.getD "unknown") req.body (some signature) newEventId now]) newEventId WebhookStatus.Processed true none none now }) := by
    unfold razorpayWebhook
    rw [hsig]
    simp [hparsed, hver, hproc]
  rw [hrun]
  refine ⟨rfl, rfl, ?_⟩
  unfold webhookUpdateStatusDb
  rw [List.map_append, list_map_self db.webhookEvents _ ?_]
  · simp [webhookCreateRow, webhookUpdateStatusRow]
  · intro e he
    simp [hfresh e he]

/-- C9 witness: the concrete `invoice.paid` run through the amended
theorem. -/
theorem webhook_unrecognized_event_processed_witness :
    (razorpayWebhook "whsec" concatMac unknownEventDelivery ⟨[], [], [], []⟩ 4 60).1 =
      Except.ok ⟨true, "Webhook processed successfully"⟩ ∧
    (razorpayWebhook "whsec" concatMac unknownEventDelivery ⟨[], [], [], []⟩ 4 60).2.payments =
      Db.payments ⟨[], [], [], []⟩ ∧
    (razorpayWebhook "whsec" concatMac unknownEventDelivery ⟨[], [], [], []⟩ 4 60).2.webhookEvents =
      Db.webhookEvents ⟨[], [], [], []⟩ ++
        [{ id := 4
           eventType := "invoice.paid"
           paymentId := none
           status := WebhookStatus.Processed
           payload := "invoice-body"
           signature := some (concatMac "whsec" "invoice-body")
           signatureVerified := true
           errorMessage := none
           processedAt := some 60
           createdAt := 60 }] :=
  webhook_unrecognized_event_processed "whsec" concatMac unknownEventDelivery
    ⟨[], [], [], []⟩ 4 60 (concatMac "whsec" "invoice-body") ⟨"invoice.paid", ⟨none⟩⟩
    rfl rfl rfl rfl (by decide) (by decide) (by decide) (by decide) (by decide)
    (fun e he => absurd he (List.not_mem_nil e))

/-- C10: `create_payment` persists the `Pending` row before the
method-specific dispatch; for EVM and Solana methods (deposit-address
generation always fails) and for Lightning (invoice creation always fails),
the call errors while the new `Pending` Payment row stays persisted — it is
not rolled back, and no address or transaction row is written either. -/
theorem create_payment_pending_row_persists (cfg : ProcessorConfig)
    (orderResult : Except AppError String) (request : CreatePaymentRequest)
    (db : Db) (newId now : Nat) :
    (paymentCreateRow request.amount request.method newId now).status =
      PaymentStatus.Pending ∧
    ((request.method = PaymentMethod.Ethereum ∨ request.method = PaymentMethod.Polygon ∨
      request.method = PaymentMethod.Bsc ∨ request.method = PaymentMethod.Arbitrum ∨
      request.method = PaymentMethod.Solana ∨ request.method = PaymentMethod.Lightning) →
      (∃ e, (createPayment cfg orderResult request db newId now).1 = Except.error e) ∧
      (createPayment cfg orderResult request db newId now).2.payments =
        db.payments ++ [paymentCreateRow request.amount request.method newId now] ∧
      (createPayment cfg orderResult request db newId now).2.cryptoAddresses =
        db.cryptoAddresses ∧
      (createPayment cfg orderResult request db newId now).2.transactions =
        db.transactions) := by
  refine ⟨rfl, ?_⟩
  rintro (h | h | h | h | h | h) <;>
    simp [createPayment, h, createEvmPayment, createSolanaPayment,
      createLightningPayment, generateDepositAddress, lightningCreateInvoice]

/-- `x ||| y = 0` exactly when both are `0`. -/
theorem nat_lor_eq_zero (x y : Nat) : x ||| y = 0 ↔ x = 0 ∧ y = 0 := by
  constructor
  · intro h
    constructor
    · refine Nat.zero_of_testBit_eq_false fun i => ?_
      have := congrArg (fun n => n.testBit i) h
      simp [Nat.testBit_lor] at this
      exact this.1
    · refine Nat.zero_of_testBit_eq_false fun i => ?_
      have := congrArg (fun n => n.testBit i) h
      simp [Nat.testBit_lor] at this
      exact this.2
  · rintro ⟨rfl, rfl⟩
    rfl

/-- The OR-accumulator is `0` at the end exactly when it started `0` and every
element is `0`. -/
theorem foldl_lor_eq_zero (l : List Nat) (acc : Nat) :
    l.foldl Nat.lor acc = 0 ↔ acc = 0 ∧ ∀ x ∈ l, x = 0 := by
  induction l generalizing acc with
  | nil => simp
  | cons x t ih =>
    rw [List.foldl_cons, ih]
    constructor
    · rintro ⟨h, ht⟩
      rcases (nat_lor_eq_zero acc x).1 h with ⟨ha, hx⟩
      refine ⟨ha, fun y hy => ?_⟩
      rcases List.mem_cons.1 hy with hy | hy
      · exact hy ▸ hx
      · exact ht y hy
    · rintro ⟨ha, hall⟩
      refine ⟨(nat_lor_eq_zero acc x).2 ⟨ha, hall x (List.mem_cons_self x t)⟩, ?_⟩
      exact fun y hy => hall y (List.mem_cons_of_mem x hy)

/-- The constant-time accumulator comparison decides byte-string equality. -/
theorem ctEqBytes_iff (a b : List Nat) : ctEqBytes a b = true ↔ a = b := by
  unfold ctEqBytes
  rw [Bool.and_eq_true, beq_iff_eq, beq_iff_eq, foldl_lor_eq_zero]
  constructor
  · rintro ⟨hlen, _, hz⟩
    induction a generalizing b with
    | nil => cases b with
      | nil => rfl
      | cons y t => cases hlen
    | cons x t ih =>
      cases b with
      | nil => cases hlen
      | cons y s =>
        have hx : x = y := Nat.xor_eq_zero.1
          (hz (x ^^^ y) (by rw [List.zipWith_cons_cons]; exact List.mem_cons_self _ _))
        have ht : t = s := by
          refine ih s (by simpa using hlen) ?_
          intro z hz2
          exact hz z (by rw [List.zipWith_cons_cons]; exact List.mem_cons_of_mem _ hz2)
        rw [hx, ht]
  · rintro rfl
    refine ⟨rfl, rfl, ?_⟩
    intro x hx
    induction a with
    | nil => cases hx
    | cons y t ih =>
      rw [List.zipWith_cons_cons] at hx
      rcases List.mem_cons.1 hx with h | h
      · rw [h]
        exact Nat.xor_self y
      · exact ih h

/-- `HmacSignature::verify` accepts exactly the correct tag (its
constant-time comparison is semantically byte-string equality). -/
theorem hmacSignatureVerify_ok (macBytes : List Nat → List Nat → List Nat)
    (message signature secret : List Nat) :
    hmacSignatureVerify macBytes message signature secret =
      Except.ok (decide (macBytes secret message = signature)) := by
  unfold hmacSignatureVerify
  congr 1
  refine Bool.eq_iff_iff.mpr ?_
  simp [ctEqBytes_iff]

/-- The webhook-delivery verifier accepts exactly the matching hex tag
(functionally; the comparison itself is Rust `String` equality). -/
theorem verifyWebhookSignature_ok (mac : String → String → String)
    (payload signature secret : String) :
    verifyWebhookSignature mac payload signature secret = Except.ok true ↔
      mac secret payload = signature := by
  unfold verifyWebhookSignature
  by_cases h : mac secret payload = signature <;> simp [h]

/-- C8: of the four HMAC verification sites, only
`HmacSignature::verify` compares with the constant-time `Mac::verify_slice`;
the webhook-delivery, checkout payment-signature and subscription-signature
verifications in `RazorpayWebhookVerifier` all compare the hex strings with
Rust's default `String` equality, contradicting the constant-time
requirement. -/
theorem hmac_comparison_sites :
    hmacSignatureVerifyComparison = ComparisonKind.constantTime ∧
    verifyWebhookSignatureComparison = ComparisonKind.rustStringEq ∧
    verifyPaymentSignatureComparison = ComparisonKind.rustStringEq ∧
    verifySubscriptionSignatureComparison = ComparisonKind.rustStringEq ∧
    ComparisonKind.rustStringEq ≠ ComparisonKind.constantTime := by
  exact ⟨rfl, rfl, rfl, rfl, by decide⟩
